import Mathlib

/-! Verification of the Bravia favourites Homebridge platform (src/index.js).

Shallow embedding of the plugin's core logic:

* `loadFavourites` — `BraviaFavouritesPlatform.loadFavourites` (src/index.js:130-157);
* `deriveChannelNum` / `buildChannelMap` / `refreshChannelMap` —
  `BraviaTvController.refreshChannelMap` (src/index.js:341-388);
* `pollStep` / `getPowerStatus` — `BraviaTvController.startPollingPower` and
  `getPowerStatus` (src/index.js:295-313, 411-424);
* `setPower`, `selectIdentifier`, `tuneChannel` — the public operations
  (src/index.js:315-339, 390-409);
* `buildServices` — the HomeKit capability (input-service) rebuild
  (src/index.js:208-293);
* `pollSysStep` — a small event machine for the poll-loop scheduling and the
  shutdown handler (src/index.js:196-205, 295-313).

Timestamps are embedded as `Int` milliseconds.  JavaScript strings are Lean
`String`s processed as `List Char`; only ASCII whitespace is modelled for
`trim`, and the decimal re-rendering `String(Number(s))` of an all-digit
string `s` is modelled as stripping leading zeros, which is exact for values
below 2^53 (IEEE-754 double precision overflow is outside the model).
-/

set_option autoImplicit false

namespace Bravia

/-- ASCII whitespace, modelling the whitespace class used by JS `trim`. -/
def jsWhitespace (c : Char) : Bool :=
  c == ' ' || c == '\t' || c == '\n' || c == '\r' || c == '\x0b' || c == '\x0c'

/-- JS `String.prototype.trim` on a char list (ASCII whitespace). -/
def trimChars (cs : List Char) : List Char :=
  ((cs.dropWhile jsWhitespace).reverse.dropWhile jsWhitespace).reverse

/-- The regex test `/^\d+$/`: non-empty and all ASCII digits. -/
def allDigitsL (cs : List Char) : Bool :=
  !cs.isEmpty && cs.all (·.isDigit)

/-- Test of the regex `/^\d+$/` on a string. -/
def allDigits (s : String) : Bool := allDigitsL s.data

/-- Models `String(Number(s))` for an all-digit string `s`: drop leading zeros
(an all-zero string renders as `"0"`).  Exact below 2^53. -/
def stripZerosL (cs : List Char) : List Char :=
  match cs.dropWhile (· == '0') with
  | [] => ['0']
  | t => t

/-- Models `String(Number(s))` for an all-digit string. -/
def stripLeadingZeros (s : String) : String := String.mk (stripZerosL s.data)

/-- JS `raw.split(/\r?\n/)`: split at each `'\n'`, consuming one `'\r'`
immediately before it; a lone `'\r'` is not a separator.  The accumulator
holds the current chunk reversed. -/
def splitLinesAux : List Char → List Char → List String
  | [], acc => [String.mk acc.reverse]
  | c :: rest, acc =>
    if c = '\n' then
      (match acc with
       | '\r' :: acc2 => String.mk acc2.reverse
       | _ => String.mk acc.reverse) :: splitLinesAux rest []
    else
      splitLinesAux rest (c :: acc)

/-- JS `raw.split(/\r?\n/)`. -/
def splitLinesJs (raw : String) : List String := splitLinesAux raw.data []

/-- JS `line.indexOf('=')`, as an `Option` (JS returns `-1` when absent). -/
def findEq : List Char → Option Nat
  | [] => none
  | c :: rest => if c = '=' then some 0 else (findEq rest).map (· + 1)

/-- A favourite as produced by the loader: display name and normalized
all-digit channel-number string. -/
structure Favourite where
  name : String
  number : String
  deriving DecidableEq, Repr

/-- One iteration of the loader loop body (src/index.js:136-151): trim the
line, skip empties and `#` comments, split at the first `=` (which must not
be at index 0 and must exist), require a non-empty trimmed name and an
all-digit trimmed number, and store the number normalized. -/
def parseLine (lineRaw : String) : Option Favourite :=
  let cs := trimChars lineRaw.data
  match cs with
  | [] => none
  | c :: _ =>
    if c = '#' then none
    else
      match findEq cs with
      | none => none
      | some eq =>
        if eq = 0 then none
        else
          let name := trimChars (cs.take eq)
          let number := trimChars (cs.drop (eq + 1))
          if name = [] then none
          else if allDigitsL number then
            some ⟨String.mk name, String.mk (stripZerosL number)⟩
          else none

/-- The loader loop with its cap: after a favourite is pushed the code breaks
as soon as `out.length >= max` (src/index.js:149-150); `c` is the number of
favourites collected so far. -/
def collectFavs (max : Nat) : Nat → List String → List Favourite
  | _, [] => []
  | c, l :: ls =>
    match parseLine l with
    | none => collectFavs max c ls
    | some f => if max ≤ c + 1 then [f] else f :: collectFavs max (c + 1) ls

/-- The loader `BraviaFavouritesPlatform.loadFavourites` (src/index.js:130-157).
`content = none` models a `readFileSync` failure, caught with a log: the
function returns the (still empty) list and does not raise. -/
def loadFavourites (content : Option String) (max : Nat) : List Favourite :=
  match content with
  | none => []
  | some raw => collectFavs max 0 (splitLinesJs raw)

/-! ## Channel-number derivation (src/index.js:361-381) -/

/-- One entry of the `getContentList` response payload.  Fields are optional
strings; an absent or empty string is JS-falsy. -/
structure ContentItem where
  uri : Option String
  dispNum : Option String
  title : Option String
  deriving DecidableEq, Repr

/-- JS `\w`: ASCII letter, digit or underscore. -/
def isWordChar (c : Char) : Bool := c.isAlphanum || c == '_'

/-- Tier 1 (src/index.js:366-368): `item.dispNum && /^\d+$/.test(...)`,
normalized by `String(Number(...))`.  (An empty `dispNum` is falsy, and also
fails `/^\d+$/`, so truthiness is subsumed by `allDigitsL`.) -/
def tier1 (item : ContentItem) : Option (List Char) :=
  match item.dispNum with
  | some d => if allDigitsL d.data then some (stripZerosL d.data) else none
  | none => none

/-- The regex match `trim(title).match(/^(\d{1,4})\b/)`: the leading maximal
digit run must have length 1..4 (a boundary cannot fall inside the run, so a
run of 5+ digits never matches) and the character after it, if any, must not
be a word character (`\b`). -/
def tier2L (title : List Char) : Option (List Char) :=
  let t := trimChars title
  let run := t.takeWhile (·.isDigit)
  if run.isEmpty then none
  else if 4 < run.length then none
  else
    match (t.drop run.length).head? with
    | none => some (stripZerosL run)
    | some c => if isWordChar c then none else some (stripZerosL run)

/-- Tier 2 (src/index.js:370-373): guarded by the truthiness of `item.title`. -/
def tier2 (item : ContentItem) : Option (List Char) :=
  match item.title with
  | some t => if t.data = [] then none else tier2L t.data
  | none => none

/-- Case-insensitive literal prefix match, modelling the `/i` flag. -/
def ciStarts : List Char → List Char → Bool
  | [], _ => true
  | _ :: _, [] => false
  | k :: ks, c :: cs => k.toLower == c.toLower && ciStarts ks cs

/-- Try one alternative `key` (already ending in `'='`) at the current
position: case-insensitive literal, then a nonempty greedy digit run. -/
def keyDigits (key : List Char) (cs : List Char) : Option (List Char) :=
  if ciStarts key cs then
    let ds := (cs.drop key.length).takeWhile (·.isDigit)
    if ds.isEmpty then none else some ds
  else none

/-- The alternation `(?:dispNum|channel|ch)=(\d+)` tried at one position, in
the regex's left-to-right alternative order. -/
def tier3At (cs : List Char) : Option (List Char) :=
  match keyDigits "dispNum=".data cs with
  | some ds => some ds
  | none =>
    match keyDigits "channel=".data cs with
    | some ds => some ds
    | none => keyDigits "ch=".data cs

/-- The unanchored search `uri.match(/(?:dispNum|channel|ch)=(\d+)/i)`:
try each start position left to right. -/
def tier3Scan : List Char → Option (List Char)
  | [] => none
  | c :: rest =>
    match tier3At (c :: rest) with
    | some ds => some ds
    | none => tier3Scan rest

/-- Tier 3 (src/index.js:375-378), with the captured digits normalized by
`String(Number(...))`. -/
def tier3 (item : ContentItem) : Option (List Char) :=
  match item.uri with
  | some u => (tier3Scan u.data).map stripZerosL
  | none => none

/-- The three-tier fallback of src/index.js:364-378 (`num` stays `null` when
every tier fails). -/
def deriveL (item : ContentItem) : Option (List Char) :=
  match tier1 item with
  | some n => some n
  | none =>
    match tier2 item with
    | some n => some n
    | none => tier3 item

/-- The channel number derived for one content-list entry, as a string. -/
def deriveChannelNum (item : ContentItem) : Option String :=
  (deriveL item).map String.mk

/-- The `(num, uri)` pair an entry contributes to the new map: entries with a
falsy `uri` are skipped up front (src/index.js:362), and entries whose three
tiers all fail are dropped (src/index.js:380). -/
def itemEntry (item : ContentItem) : Option (String × String) :=
  match item.uri with
  | none => none
  | some u =>
    if u.data = [] then none
    else
      match deriveChannelNum item with
      | none => none
      | some n => some (n, u)

/-- JS `Map.prototype.set`: replace the value at an existing key (keeping its
position) or append a new binding. -/
def jsMapSet {α β : Type} [BEq α] (m : List (α × β)) (k : α) (v : β) : List (α × β) :=
  if m.any (fun p => p.1 == k) then
    m.map (fun p => if p.1 == k then (k, v) else p)
  else
    m ++ [(k, v)]

/-- JS `Map.prototype.get` as an `Option`. -/
def jsMapGet {α β : Type} [BEq α] (m : List (α × β)) (k : α) : Option β :=
  (m.find? (fun p => p.1 == k)).map (·.2)

/-- The `newMap` built by the loop of src/index.js:359-381; it never reads the
old map. -/
def buildChannelMap (list : List ContentItem) : List (String × String) :=
  list.foldl
    (fun m item =>
      match itemEntry item with
      | none => m
      | some p => jsMapSet m p.1 p.2)
    []

/-! ## Controller state and the refresh / power / channel operations -/

/-- The mutable fields of `BraviaTvController` the claims are about
(src/index.js:179-183 plus the `identifierToChannel` table of line 260). -/
structure CtrlState where
  power : Bool
  activeIdentifier : Nat
  channelUriByNumber : List (String × String)
  lastChannelMapMs : Int
  identifierToChannel : List (Nat × String)
  deriving DecidableEq, Repr

/-- The state right after the constructor ran (src/index.js:179-183) with an
empty favourites list. -/
def ctrlInit : CtrlState := ⟨false, 0, [], 0, []⟩

/-- The observable RPC calls issued by the controller. -/
inductive RpcCall where
  | setPowerStatus (b : Bool)
  | getPowerStatus
  | getContentList
  | setPlayContent (uri : String)
  deriving DecidableEq, Repr

/-- Outward notifications (`updateValue` on a characteristic). -/
inductive Notif where
  | power (b : Bool)
  | activeIdentifier (i : Nat)
  deriving DecidableEq, Repr

/-- Result of one `refreshChannelMap` run: the new state, the RPC calls it
issued, and whether the returned promise resolved (`ok = false` means the
`getContentList` call rejected and the error propagated to the caller). -/
structure RefreshResult where
  state : CtrlState
  calls : List RpcCall
  ok : Bool
  deriving DecidableEq, Repr

/-- The `result[0]` payload of a `getContentList` response: `none` models a
missing / falsy / non-array `resp.result[0]` (all of which the code turns
into an empty list before the `Array.isArray` / length guard). -/
def ContentResp := Option (List ContentItem)

/-- The method `BraviaTvController.refreshChannelMap` (src/index.js:341-388), driven by
the entry-time clock value `now` and the outcome of the single RPC call
(`rpc = none`: the call rejected).  Note the throttle timestamp is taken and
stored on entry (lines 342-344), before the RPC is issued. -/
def refreshChannelMap (s : CtrlState) (now : Int) (rpc : Option ContentResp) :
    RefreshResult :=
  if now - s.lastChannelMapMs < 60000 then ⟨s, [], true⟩
  else
    let s1 := { s with lastChannelMapMs := now }
    match rpc with
    | none => ⟨s1, [.getContentList], false⟩
    | some resp =>
      match resp with
      | none => ⟨s1, [.getContentList], true⟩
      | some list =>
        if list.isEmpty then ⟨s1, [.getContentList], true⟩
        else ⟨{ s1 with channelUriByNumber := buildChannelMap list }, [.getContentList], true⟩

/-- Modelled from the spec's words, for refinement comparison only (never from
the source): a refresh that measures the 60-second throttle from the
*completion* of the last refresh, so the timestamp is recorded at the RPC's
completion instant `tEnd` and only when the refresh completed (a rejected
call records nothing).  `tStart` is the entry-time clock value. -/
def refreshChannelMapSpecTimed (s : CtrlState) (tStart tEnd : Int)
    (rpc : Option ContentResp) : RefreshResult :=
  if tStart - s.lastChannelMapMs < 60000 then ⟨s, [], true⟩
  else
    match rpc with
    | none => ⟨s, [.getContentList], false⟩
    | some resp =>
      let s1 := { s with lastChannelMapMs := tEnd }
      match resp with
      | none => ⟨s1, [.getContentList], true⟩
      | some list =>
        if list.isEmpty then ⟨s1, [.getContentList], true⟩
        else ⟨{ s1 with channelUriByNumber := buildChannelMap list }, [.getContentList], true⟩

/-- Result of one public operation (`setPower` / `selectIdentifier`):
`ok = false` means the returned promise rejected. -/
structure OpResult where
  ok : Bool
  state : CtrlState
  calls : List RpcCall
  notifs : List Notif
  deriving DecidableEq, Repr

/-- The method `BraviaTvController.setPower` (src/index.js:315-327): one
`setPowerStatus` RPC; on success set `this.power` and push an `Active`
update; on rejection the error propagates before any mutation. -/
def setPower (s : CtrlState) (b : Bool) (rpcOk : Bool) : OpResult :=
  if rpcOk then ⟨true, { s with power := b }, [.setPowerStatus b], [.power b]⟩
  else ⟨false, s, [.setPowerStatus b], []⟩

/-- The method `BraviaTvController.tuneChannel` (src/index.js:390-409).  `now` and
`refreshRpc` drive the embedded best-effort `refreshChannelMap` (whose
rejection is swallowed by `.catch(() => {})`); `playOk` is the outcome of the
`setPlayContent` call when one is issued. -/
def tuneChannel (s : CtrlState) (channelNumber : String) (now : Int)
    (refreshRpc : Option ContentResp) (playOk : Bool) : OpResult :=
  let ch := stripLeadingZeros channelNumber
  let r := refreshChannelMap s now refreshRpc
  match jsMapGet r.state.channelUriByNumber ch with
  | none => ⟨true, r.state, r.calls, []⟩
  | some uri =>
    if playOk then ⟨true, r.state, r.calls ++ [.setPlayContent uri], []⟩
    else ⟨false, r.state, r.calls ++ [.setPlayContent uri], []⟩

/-- The method `BraviaTvController.selectIdentifier` (src/index.js:329-339): record the
identifier, push an `ActiveIdentifier` update, and only then consult the
table; a missing entry is a silent successful no-op. -/
def selectIdentifier (s : CtrlState) (ident : Nat) (now : Int)
    (refreshRpc : Option ContentResp) (playOk : Bool) : OpResult :=
  let s1 := { s with activeIdentifier := ident }
  match jsMapGet s1.identifierToChannel ident with
  | none => ⟨true, s1, [], [.activeIdentifier ident]⟩
  | some ch =>
    let t := tuneChannel s1 ch now refreshRpc playOk
    ⟨t.ok, t.state, t.calls, Notif.activeIdentifier ident :: t.notifs⟩

/-! ## Power polling (src/index.js:295-313, 411-424) -/

/-- One element of the `result` array of a `getPowerStatus` response. -/
structure PowerEntry where
  status : Option String
  deriving DecidableEq, Repr

/-- A parsed `getPowerStatus` response body; `result = none` models a missing
or falsy `resp.result`. -/
structure PowerResp where
  result : Option (List PowerEntry)
  deriving DecidableEq, Repr

/-- The method `BraviaTvController.getPowerStatus` (src/index.js:411-424): the guarded
field access `resp.result && resp.result[0] && resp.result[0].status`
falling back to `'unknown'` (an empty status string is falsy). -/
def getPowerStatus (r : PowerResp) : String :=
  match r.result with
  | none => "unknown"
  | some entries =>
    match entries.head? with
    | none => "unknown"
    | some e =>
      match e.status with
      | none => "unknown"
      | some st => if st = "" then "unknown" else st

/-- The parsed response is well-formed JSON but carries no
`result[0].status` field. -/
def lacksStatusField (r : PowerResp) : Bool :=
  match r.result with
  | none => true
  | some entries =>
    match entries.head? with
    | none => true
    | some e => e.status.isNone

/-- One tick of the `poll` closure in `startPollingPower`
(src/index.js:296-310), without the rescheduling (see `pollSysStep`):
`r = none` models a rejected `getPowerStatus` call, caught with a debug log
and no state change; on success the normalized boolean is compared against
`this.power` and an `Active` update is pushed only on change. -/
def pollStep (s : CtrlState) (r : Option PowerResp) : CtrlState × List Notif :=
  match r with
  | none => (s, [])
  | some resp =>
    let isOn := getPowerStatus resp == "active"
    if s.power == isOn then (s, []) else ({ s with power := isOn }, [.power isOn])

/-- Run a sequence of poll ticks, counting the emitted notifications. -/
def pollNotifCount (s : CtrlState) (rs : List (Option PowerResp)) : Nat :=
  (rs.foldl
    (fun (p : CtrlState × Nat) r =>
      let q := pollStep p.1 r
      (q.1, p.2 + q.2.length))
    (s, 0)).2

/-- Three consecutive polls all returning the same parsed response. -/
def pollThrice (s : CtrlState) (r : PowerResp) : Nat :=
  pollNotifCount s [some r, some r, some r]

/-! ## Poll-loop scheduling and shutdown (src/index.js:196-205, 295-313)

A small event machine over the scheduling facts: `timerSet` (a
`setTimeout(poll, ...)` handle is pending), `inFlight` (a tick's RPC call is
outstanding), `shutdownReq` (the `'shutdown'` event has fired — an
environment fact: the source keeps no such flag).  The `finally` block
(line 308) reschedules unconditionally, and the shutdown handler (lines
198-204) only clears whatever timer handles are current. -/

structure PollSys where
  shutdownReq : Bool
  timerSet : Bool
  inFlight : Bool
  ticksAfterShutdown : Nat
  deriving DecidableEq, Repr

inductive PollEv where
  | timerFire
  | rpcComplete
  | shutdown
  deriving DecidableEq, Repr

/-- One scheduling event.  `timerFire`: the pending timeout runs `poll`,
starting a tick (counted when it happens after shutdown).  `rpcComplete`: the
in-flight tick's RPC settles and the `finally` block sets a fresh timeout —
with no shutdown check (src/index.js:307-309).  `shutdown`: the handler
clears the pending timeout (src/index.js:200). -/
def pollSysStep (s : PollSys) : PollEv → Option PollSys
  | .timerFire =>
    if s.timerSet then
      some { s with
        timerSet := false
        inFlight := true
        ticksAfterShutdown :=
          s.ticksAfterShutdown + (if s.shutdownReq then 1 else 0) }
    else none
  | .rpcComplete =>
    if s.inFlight then some { s with inFlight := false, timerSet := true }
    else none
  | .shutdown => some { s with shutdownReq := true, timerSet := false }

/-- Run the machine over an event list (`none` when an event is not enabled). -/
def runPollSys (s : PollSys) : List PollEv → Option PollSys
  | [] => some s
  | e :: es =>
    match pollSysStep s e with
    | none => none
    | some s2 => runPollSys s2 es

/-- The machine right after `startPollingPower` invoked `poll()` directly
(src/index.js:312): one tick's RPC is in flight, no timer is pending. -/
def pollSysInit : PollSys := ⟨false, false, true, 0⟩

/-! ## Capability (HomeKit service) rebuild — `buildServices`
(src/index.js:208-293) -/

/-- The HAP service kinds the code distinguishes. -/
inductive SvcKind where
  | info
  | television
  | inputSource
  deriving DecidableEq, Repr

/-- A HomeKit service as the code observes it: kind, `subtype` (set only for
input sources), display name, and the `Identifier` characteristic (set only
for input sources). -/
structure Svc where
  kind : SvcKind
  subtype : Option String
  name : String
  identifier : Option Nat
  deriving DecidableEq, Repr

/-- JS `Number(fav.number)` with the guard of src/index.js:266-267: finite and
in `1..999`.  Favourite numbers produced by the loader are all-digit strings,
for which `Number` is their numeric value; anything else is rejected by the
guard in every reachable configuration. -/
def qualifies (fav : Favourite) : Option Nat :=
  if allDigitsL fav.number.data then
    let v := (fav.number.data.foldl (fun a c => a * 10 + (c.toNat - 48)) 0)
    if 0 < v ∧ v ≤ 999 then some v else none
  else none

/-- The stable subtype key of src/index.js:270. -/
def favSubtype (fav : Favourite) : String := "fav:" ++ fav.number

/-- True when `accessory.getServiceById(Service.InputSource, st)` succeeds. -/
def hasInput (svcs : List Svc) (st : String) : Bool :=
  svcs.any (fun s => decide (s.kind = SvcKind.inputSource) && s.subtype == some st)

/-- Re-run the `setCharacteristic` calls of src/index.js:276-282 on the
existing input service with subtype `st`: the name follows the favourite, the
identifier is (re)set to the same channel-number value. -/
def updateInput (svcs : List Svc) (st : String) (fav : Favourite) (idv : Nat) :
    List Svc :=
  svcs.map fun s =>
    if decide (s.kind = SvcKind.inputSource) && s.subtype == some st then
      { s with name := fav.name, identifier := some idv }
    else s

/-- One iteration of the favourites loop (src/index.js:265-288) over the
accumulator (current service list, identifier table, inputs added so far). -/
def addInputsStep (acc : List Svc × List (Nat × String) × List Svc)
    (fav : Favourite) : List Svc × List (Nat × String) × List Svc :=
  match qualifies fav with
  | none => acc
  | some idv =>
    let st := favSubtype fav
    let (svcs, table, added) := acc
    if hasInput svcs st then
      (updateInput svcs st fav idv, jsMapSet table idv fav.number, added)
    else
      let ns : Svc := ⟨SvcKind.inputSource, some st, fav.name, some idv⟩
      (svcs ++ [ns], jsMapSet table idv fav.number, added ++ [ns])

/-- The outcome of one `buildServices` run. -/
structure BuildResult where
  services : List Svc
  removed : List Svc
  added : List Svc
  identifierToChannel : List (Nat × String)
  deriving DecidableEq, Repr

/-- The method `BraviaTvController.buildServices` (src/index.js:208-293): first remove
every service that is not `AccessoryInformation` (lines 210-214), then create
or reuse the `Television` service (lines 217-219), then walk the favourites
creating or updating one `InputSource` service per qualifying favourite and
rebuilding the identifier table (lines 260-288). -/
def buildServices (acc : List Svc) (name : String) (favourites : List Favourite) :
    BuildResult :=
  let removed := acc.filter (fun s => !decide (s.kind = SvcKind.info))
  let kept := acc.filter (fun s => decide (s.kind = SvcKind.info))
  let tvNew : Svc := ⟨SvcKind.television, none, name, none⟩
  let baseAdded : List Svc × List Svc :=
    match kept.find? (fun s => decide (s.kind = SvcKind.television)) with
    | some _ =>
      (kept.map (fun s =>
        if decide (s.kind = SvcKind.television) then { s with name := name } else s),
       ([] : List Svc))
    | none => (kept ++ [tvNew], [tvNew])
  let r := favourites.foldl addInputsStep (baseAdded.1, [], [])
  ⟨r.1, removed, baseAdded.2 ++ r.2.2, r.2.1⟩

/-! ## Helper lemmas -/

theorem stripZerosL_eq (cs : List Char) :
    stripZerosL cs = ['0'] ∨
      ∃ c t, stripZerosL cs = c :: t ∧ (c == '0') = false := by
  unfold stripZerosL
  cases h : cs.dropWhile (· == '0') with
  | nil => left; rfl
  | cons c t =>
    right
    refine ⟨c, t, rfl, ?_⟩
    have hne : cs.dropWhile (· == '0') ≠ [] := by simp [h]
    have hh := List.head_dropWhile_not (· == '0') cs hne
    simpa [h] using hh

theorem stripZerosL_idem (cs : List Char) :
    stripZerosL (stripZerosL cs) = stripZerosL cs := by
  rcases stripZerosL_eq cs with h | ⟨c, t, h, hc⟩
  · rw [h]; decide
  · rw [h]
    unfold stripZerosL
    simp [List.dropWhile_cons, hc]

theorem allDigitsL_stripZerosL {cs : List Char} (h : allDigitsL cs = true) :
    allDigitsL (stripZerosL cs) = true := by
  unfold stripZerosL
  cases hd : cs.dropWhile (· == '0') with
  | nil => decide
  | cons c t =>
    unfold allDigitsL at h ⊢
    simp only [Bool.and_eq_true, List.all_eq_true] at h ⊢
    refine ⟨by simp, ?_⟩
    intro x hx
    exact h.2 x (List.Sublist.subset (List.dropWhile_sublist _) (hd ▸ hx))

theorem parseLine_some {l : String} {f : Favourite} (h : parseLine l = some f) :
    f.name ≠ "" ∧ allDigits f.number = true ∧
      stripLeadingZeros f.number = f.number := by
  simp only [parseLine] at h
  split at h
  · exact absurd h (by simp)
  · split at h
    · exact absurd h (by simp)
    · split at h
      · exact absurd h (by simp)
      · split at h
        · exact absurd h (by simp)
        · split at h
          · exact absurd h (by simp)
          · split at h
            · rename_i hname hdig
              injection h with h
              subst h
              refine ⟨?_, ?_, ?_⟩
              · intro heq
                exact hname (by simpa using congrArg String.data heq)
              · exact allDigitsL_stripZerosL hdig
              · exact congrArg String.mk (stripZerosL_idem _)
            · exact absurd h (by simp)

theorem collectFavs_eq_take (max M : Nat) (hM : M = Nat.max max 1) :
    ∀ (ls : List String) (c : Nat), c < M →
      collectFavs max c ls = (ls.filterMap parseLine).take (M - c) := by
  have hub : max ≤ M := hM ▸ Nat.le_max_left _ _
  have hlb : 1 ≤ M := hM ▸ Nat.le_max_right _ _
  have hch : M = max ∨ M = 1 := by
    rw [hM]
    rcases Nat.le_total max 1 with h1 | h1
    · right; exact Nat.max_eq_right h1
    · left; exact Nat.max_eq_left h1
  intro ls
  induction ls with
  | nil => intro c _; simp [collectFavs]
  | cons l ls ih =>
    intro c hc
    cases hp : parseLine l with
    | none => simp only [collectFavs, hp, List.filterMap_cons]; exact ih c hc
    | some f =>
      simp only [collectFavs, hp, List.filterMap_cons]
      by_cases hm : max ≤ c + 1
      · rw [if_pos hm]
        have h1 : M - c = 1 := by rcases hch with h | h <;> omega
        rw [h1]
        simp
      · rw [if_neg hm]
        have h2 : c + 1 < M := by rcases hch with h | h <;> omega
        rw [ih (c + 1) h2]
        have h3 : M - c = (M - (c + 1)) + 1 := by omega
        rw [h3, List.take_succ_cons]

/-! ## Claim C9 — the favourites loader -/

/-- C9, counterexample: The claim says the loader returns *at most max*
favourites for every `max`; the cap check of src/index.js:150 runs only after
a favourite was pushed, so with `max = 0` the loader still returns one
favourite. -/
theorem bravia_c9_cex :
    loadFavourites (some "A=1\nB=2") 0 = [⟨"A", "1"⟩] ∧
      ¬ (loadFavourites (some "A=1\nB=2") 0).length ≤ 0 := by
  constructor
  · decide
  · decide

/-- C9 (amended): For every file content and every `max`, the loader
returns in file order the favourites parsed from valid `NAME=NUMBER` lines
(first `=` as splitter, nonempty trimmed name, all-digits number stored with
leading zeros stripped), skipping blank, `#`-comment and malformed lines
without affecting neighbouring valid lines, truncated to the first
`Nat.max max 1` entries — i.e. to at most `max` when `max ≥ 1`, while a
non-positive `max` still admits one favourite because the cap is checked only
after a push; on read failure it returns `[]` and does not raise. -/
theorem bravia_c9_amended : ∀ (raw : String) (max : Nat),
    loadFavourites (some raw) max
        = ((splitLinesJs raw).filterMap parseLine).take (Nat.max max 1)
    ∧ (1 ≤ max → (loadFavourites (some raw) max).length ≤ max)
    ∧ (∀ f, f ∈ loadFavourites (some raw) max →
        f.name ≠ "" ∧ allDigits f.number = true ∧
          stripLeadingZeros f.number = f.number)
    ∧ loadFavourites none max = [] := by
  intro raw max
  have hmain : loadFavourites (some raw) max
      = ((splitLinesJs raw).filterMap parseLine).take (Nat.max max 1) := by
    show collectFavs max 0 (splitLinesJs raw) = _
    rw [collectFavs_eq_take max (Nat.max max 1) rfl (splitLinesJs raw) 0
      (Nat.le_max_right max 1)]
    rw [Nat.sub_zero]
  refine ⟨hmain, ?_, ?_, rfl⟩
  · intro h1
    have h2 : Nat.max max 1 = max := Nat.max_eq_left h1
    rw [hmain, List.length_take, h2]
    exact Nat.min_le_left _ _

  · intro f hf
    rw [hmain] at hf
    have hf2 := List.mem_of_mem_take hf
    rw [List.mem_filterMap] at hf2
    obtain ⟨l, _, hl⟩ := hf2
    exact parseLine_some hl

/-- C9 witness: the amended theorem applied at a concrete file and
`max = 30`, discharging the hypotheses there. -/
theorem bravia_c9_witness :
    (loadFavourites (some "# c\nBBC One=001\n\nDave=19") 30).length ≤ 30 ∧
      ((⟨"BBC One", "1"⟩ : Favourite).name ≠ "" ∧
        allDigits (⟨"BBC One", "1"⟩ : Favourite).number = true ∧
        stripLeadingZeros (⟨"BBC One", "1"⟩ : Favourite).number
          = (⟨"BBC One", "1"⟩ : Favourite).number) :=
  ⟨(bravia_c9_amended "# c\nBBC One=001\n\nDave=19" 30).2.1 (by decide),
   (bravia_c9_amended "# c\nBBC One=001\n\nDave=19" 30).2.2.1 ⟨"BBC One", "1"⟩
     (by decide)⟩

/-! ## Claim C1 — the refresh throttle -/

/-- A content item whose derivation succeeds, for concrete runs. -/
def itemA : ContentItem := ⟨some "tv:dvbt?tsid=1", some "1", some "BBC One"⟩

/-- A successful content-list RPC outcome carrying one entry. -/
def rGood : Option ContentResp := some (some [itemA])

/-- C1, counterexample: The claim measures the 60-second window from the
*completion* of the last refresh; the code stores `Date.now()` taken on entry
(src/index.js:342-344), before the RPC.  Run: a refresh enters at t=100000
and its RPC completes at t=130000; a second call enters at t=161000, i.e.
31 s < 60 s after that completion.  The claim (the spec-worded timed variant
`refreshChannelMapSpecTimed`) makes the second call a no-op with no RPC; the
code issues a content-list RPC. -/
theorem bravia_c1_cex :
    (refreshChannelMap (refreshChannelMap ctrlInit 100000 rGood).state
        161000 rGood).calls.length = 1
    ∧ (refreshChannelMapSpecTimed
        (refreshChannelMapSpecTimed ctrlInit 100000 130000 rGood).state
        161000 161500 rGood).calls.length = 0
    ∧ (161000 : Int) - 130000 < 60000 := by
  refine ⟨?_, ?_, ?_⟩ <;> decide

/-- C1 (amended): If fewer than 60 seconds have elapsed since the last
refresh attempt *began* (the moment it passed the throttle check — recorded
even when the RPC later fails), `refreshChannelMap` returns immediately as a
successful no-op issuing no RPC call; otherwise it issues exactly one
content-list RPC call and re-arms the window at its own entry time. -/
theorem bravia_c1_amended : ∀ (s : CtrlState) (now : Int) (rpc : Option ContentResp),
    (now - s.lastChannelMapMs < 60000 → refreshChannelMap s now rpc = ⟨s, [], true⟩)
    ∧ (60000 ≤ now - s.lastChannelMapMs →
        (refreshChannelMap s now rpc).calls = [RpcCall.getContentList]
        ∧ (refreshChannelMap s now rpc).state.lastChannelMapMs = now) := by
  intro s now rpc
  constructor
  · intro h
    unfold refreshChannelMap
    rw [if_pos h]
  · intro h
    unfold refreshChannelMap
    rw [if_neg (by omega)]
    rcases rpc with _ | resp
    · exact ⟨rfl, rfl⟩
    · rcases resp with _ | list
      · exact ⟨rfl, rfl⟩
      · by_cases he : list.isEmpty <;> simp [he]

/-- C1 witness: the amended theorem at concrete inputs (a throttled call
at t=-1 against `lastChannelMapMs = 0`, and an armed call at t=60000). -/
theorem bravia_c1_witness :
    refreshChannelMap ctrlInit (-1) none = ⟨ctrlInit, [], true⟩
    ∧ (refreshChannelMap ctrlInit 60000 none).calls = [RpcCall.getContentList] :=
  ⟨(bravia_c1_amended ctrlInit (-1) none).1 (by decide),
   ((bravia_c1_amended ctrlInit 60000 none).2 (by decide)).1⟩

/-! ## Claim C4 — empty responses keep the map; nonempty replace it wholesale -/

/-- C4: For every refresh whose content-list RPC succeeds and that is not
throttled: a response with no entries (`some none`: a missing or non-array
`result[0]`; `some (some [])`: an empty array) leaves the channel map
completely unchanged, and the refresh still resolves successfully; a
nonempty response installs `buildChannelMap list` — a value computed from the
response alone, independent of the old map, assigned in one step (the
single-threaded embedding renders "old map visible until the new one is fully
built" as this one-shot functional replacement). -/
theorem bravia_c4 : ∀ (s : CtrlState) (now : Int) (list : List ContentItem),
    60000 ≤ now - s.lastChannelMapMs →
      (refreshChannelMap s now (some none)).state.channelUriByNumber
          = s.channelUriByNumber
      ∧ (refreshChannelMap s now (some (some []))).state.channelUriByNumber
          = s.channelUriByNumber
      ∧ (refreshChannelMap s now (some (some []))).ok = true
      ∧ (list ≠ [] →
          (refreshChannelMap s now (some (some list))).state.channelUriByNumber
            = buildChannelMap list) := by
  intro s now list h
  have hn : ¬ now - s.lastChannelMapMs < 60000 := by omega
  refine ⟨?_, ?_, ?_, ?_⟩
  · unfold refreshChannelMap; rw [if_neg hn]
  · unfold refreshChannelMap; rw [if_neg hn]; rfl
  · unfold refreshChannelMap; rw [if_neg hn]; rfl
  · intro hne
    unfold refreshChannelMap
    rw [if_neg hn]
    have he : list.isEmpty = false := by
      cases list
      · exact absurd rfl hne
      · rfl
    simp [he]

/-- C4 witness: the theorem applied at `ctrlInit`, t=60000, with the
one-entry list `[itemA]`. -/
theorem bravia_c4_witness :
    (refreshChannelMap ctrlInit 60000 (some (some []))).state.channelUriByNumber
        = ctrlInit.channelUriByNumber
    ∧ (refreshChannelMap ctrlInit 60000 (some (some [itemA]))).state.channelUriByNumber
        = buildChannelMap [itemA] :=
  ⟨(bravia_c4 ctrlInit 60000 [itemA] (by decide)).2.1,
   (bravia_c4 ctrlInit 60000 [itemA] (by decide)).2.2.2 (by decide)⟩

/-! ## Claim C2 — poll rescheduling across shutdown -/

/-- C2, evidence: The claim (and spec §5) require a shutdown-flag check
before rescheduling; the source has no such flag: the `finally` block of the
poll closure (src/index.js:307-309) sets a new timeout unconditionally, and
the `'shutdown'` handler (src/index.js:198-204) only clears the handles
current at that moment.  Starting from the constructor's state (one poll RPC
in flight), the event run `shutdown; rpcComplete; timerFire` is enabled and
ends with `ticksAfterShutdown = 1`: a poll tick runs after shutdown even
though only the one in-flight call existed at shutdown time.  The second
conjunct isolates the defect: right after the in-flight call completes
post-shutdown, a fresh timer is pending again. -/
theorem bravia_c2_evidence :
    (runPollSys pollSysInit [.shutdown, .rpcComplete, .timerFire]).map
        (·.ticksAfterShutdown) = some 1
    ∧ (runPollSys pollSysInit [.shutdown, .rpcComplete]).map (·.timerSet)
        = some true := by
  exact ⟨rfl, rfl⟩

/-! ## Claim C5 — channel-number derivation precedence -/

/-- Modelled from the claim's words, for comparison only: tier 2 as "the
leading run of 1–4 digits of the title", with no word-boundary requirement. -/
def tier2Claim (item : ContentItem) : Option (List Char) :=
  match item.title with
  | some t =>
    if t.data = [] then none
    else
      let run := (trimChars t.data).takeWhile (·.isDigit)
      if run.isEmpty then none
      else if 4 < run.length then none
      else some (stripZerosL run)
  | none => none

/-- Modelled from the claim's words: the three tiers with the claim's
boundary-free tier 2. -/
def deriveChannelNumClaim (item : ContentItem) : Option String :=
  (match tier1 item with
   | some n => some n
   | none =>
     match tier2Claim item with
     | some n => some n
     | none => tier3 item).map String.mk

/-- C5, counterexample: An entry with no display number, title `"12ab"`
and an identifier matching none of the tier-3 patterns: the claim's tier 2
("the leading run of 1–4 digits of the title") yields `"12"`, but the code's
regex `/^(\d{1,4})\b/` needs a word boundary after the digits — `'a'` is a
word character — so the code derives no number and drops the entry. -/
theorem bravia_c5_cex :
    deriveChannelNum ⟨some "meta:x", none, some "12ab"⟩ = none
    ∧ deriveChannelNumClaim ⟨some "meta:x", none, some "12ab"⟩ = some "12"
    ∧ buildChannelMap [⟨some "meta:x", none, some "12ab"⟩] = [] := by
  refine ⟨?_, ?_, ?_⟩ <;> decide

/-- C5 (amended): Strict tier precedence as claimed, except that tier 2
matches the leading run of 1–4 digits of the trimmed title only when the run
is not immediately followed by an ASCII letter, digit or underscore (the
regex word boundary `\b`; a run of 5+ digits therefore never matches):
an all-digits display-number field always wins; the claimed example
(display `"12"`, title `"99 Other Channel"`) resolves to `"12"`; and an
entry yielding no number under all three tiers contributes nothing to the
map. -/
theorem bravia_c5_amended :
    (∀ (item : ContentItem) (d : String), item.dispNum = some d →
        allDigitsL d.data = true →
        deriveChannelNum item = some (String.mk (stripZerosL d.data)))
    ∧ (∀ (item : ContentItem) (list : List ContentItem), itemEntry item = none →
        buildChannelMap (item :: list) = buildChannelMap list)
    ∧ (∀ item : ContentItem, deriveChannelNum item = none → itemEntry item = none)
    ∧ deriveChannelNum ⟨some "x", some "12", some "99 Other Channel"⟩ = some "12"
    ∧ tier2 ⟨some "x", none, some "12 News"⟩ = some ['1', '2']
    ∧ tier2 ⟨some "x", none, some "12ab"⟩ = none
    ∧ tier2 ⟨some "x", none, some "12345 News"⟩ = none := by
  refine ⟨?_, ?_, ?_, by decide, by decide, by decide, by decide⟩
  · intro item d hd hdig
    unfold deriveChannelNum deriveL tier1
    rw [hd]
    simp [hdig]
  · intro item list h
    unfold buildChannelMap
    rw [List.foldl_cons, h]
  · intro item h
    unfold itemEntry
    cases hu : item.uri with
    | none => rfl
    | some u =>
      rw [h]
      by_cases he : u.data = [] <;> simp [he]

/-- C5 witness: the amended theorem at concrete inputs (tier-1 entry with
a zero-padded display number; an entry with no derivable number dropped from
a one-entry list). -/
theorem bravia_c5_amended_witness :
    deriveChannelNum ⟨some "u", some "007", some "ignored"⟩
        = some (String.mk (stripZerosL "007".data))
    ∧ buildChannelMap [⟨some "u", none, none⟩] = buildChannelMap [] :=
  ⟨bravia_c5_amended.1 ⟨some "u", some "007", some "ignored"⟩ "007" rfl (by decide),
   bravia_c5_amended.2.1 ⟨some "u", none, none⟩ [] (by decide)⟩

/-! ## Claim C6 — change-only power notifications -/

/-- A well-formed `getPowerStatus` response reporting standby. -/
def standbyResp : PowerResp := ⟨some [⟨some "standby"⟩]⟩

/-- C6, counterexample: The claim says three consecutive same-status
polls fire *exactly one* change notification.  The controller starts with
`this.power = false` (src/index.js:179) and notifies only on change
(src/index.js:301-304): three polls all returning `"standby"` from the
initial state fire zero notifications, not one. -/
theorem bravia_c6_cex :
    pollThrice ctrlInit standbyResp = 0 ∧ pollThrice ctrlInit standbyResp ≠ 1 := by
  exact ⟨rfl, by decide⟩

/-- C6 (amended): A successful poll emits a change notification iff the
normalized boolean (`status === 'active'`) differs from the last-known state;
hence three consecutive polls returning the same status fire *at most* one
notification — exactly one when the status's boolean differs from the state
before the first of them, zero when it is already equal — never three. -/
theorem bravia_c6_amended : ∀ (s : CtrlState) (r : PowerResp),
    ((pollStep s (some r)).2 ≠ [] ↔ (getPowerStatus r == "active") ≠ s.power)
    ∧ pollThrice s r
        = (if (getPowerStatus r == "active") == s.power then 0 else 1) := by
  intro s r
  constructor
  · cases hsp : s.power <;> cases hb : getPowerStatus r == "active" <;>
      simp [pollStep, hsp, hb]
  · unfold pollThrice pollNotifCount
    simp only [List.foldl_cons, List.foldl_nil]
    cases hsp : s.power <;> cases hb : getPowerStatus r == "active" <;>
      simp [pollStep, hsp, hb]

/-! ## Claim C7 — selectIdentifier with an unmapped identifier -/

/-- C7: For every identifier with no entry in the identifier↔channel
table, `selectIdentifier` records the identifier as current, pushes the
`ActiveIdentifier` notification, and completes successfully with no RPC call
at all (in particular no `setPlayContent`) and no other state change: the
result state is exactly the input state with only `activeIdentifier`
replaced. -/
theorem bravia_c7 : ∀ (s : CtrlState) (ident : Nat) (now : Int)
    (rr : Option ContentResp) (po : Bool),
    jsMapGet s.identifierToChannel ident = none →
    selectIdentifier s ident now rr po
      = ⟨true, { s with activeIdentifier := ident }, [],
          [Notif.activeIdentifier ident]⟩ := by
  intro s ident now rr po h
  unfold selectIdentifier
  dsimp only
  rw [h]

/-- C7 witness: identifier `0` against a table holding only key `5`. -/
theorem bravia_c7_witness :
    selectIdentifier ⟨false, 3, [], 0, [(5, "5")]⟩ 0 0 none true
      = ⟨true, { (⟨false, 3, [], 0, [(5, "5")]⟩ : CtrlState) with
            activeIdentifier := 0 }, [], [Notif.activeIdentifier 0]⟩ :=
  bravia_c7 ⟨false, 3, [], 0, [(5, "5")]⟩ 0 0 none true (by decide)

/-! ## Claim C8 — setPower -/

/-- C8: `setPower` issues exactly one `setPowerStatus` RPC carrying the
requested boolean; on success it sets the local power state to that boolean
and pushes the `Active` notification; on RPC failure the promise rejects
(surfacing the error to the caller), no further call is made (no retry), and
the whole state — in particular the local power state — is unchanged. -/
theorem bravia_c8 : ∀ (s : CtrlState) (b rpcOk : Bool),
    (setPower s b rpcOk).calls = [RpcCall.setPowerStatus b]
    ∧ (setPower s b rpcOk).ok = rpcOk
    ∧ (setPower s b true).state = { s with power := b }
    ∧ (setPower s b true).notifs = [Notif.power b]
    ∧ (setPower s b false).state = s
    ∧ (setPower s b false).notifs = [] := by
  intro s b rpcOk
  unfold setPower
  cases rpcOk <;> simp

/-! ## Claim C10 — a statusless success flips power off; a failure does not -/

/-- C10: If a power-status RPC succeeds but the parsed response lacks a
`result[0].status` field, `getPowerStatus` returns `"unknown"`; the poll
treats any status other than `"active"` as off, so such a response leaves the
power state `false` — emitting an off-notification when the state was `true`
— while a transport/protocol failure (`r = none`, the catch branch) changes
nothing and emits nothing. -/
theorem bravia_c10 : ∀ (s : CtrlState) (r : PowerResp),
    lacksStatusField r = true →
      getPowerStatus r = "unknown"
      ∧ (pollStep s (some r)).1.power = false
      ∧ (pollStep s (some r)).2 = (if s.power then [Notif.power false] else [])
      ∧ pollStep s none = (s, []) := by
  intro s r h
  have hg : getPowerStatus r = "unknown" := by
    obtain ⟨res⟩ := r
    rcases res with _ | entries
    · rfl
    · rcases entries with _ | ⟨⟨st⟩, rest⟩
      · rfl
      · rcases st with _ | st
        · rfl
        · exact absurd h (by simp [lacksStatusField])
  have hba : ("unknown" == "active") = false := by decide
  refine ⟨hg, ?_, ?_, rfl⟩
  · cases hsp : s.power <;> simp [pollStep, hg, hba, hsp]
  · cases hsp : s.power <;> simp [pollStep, hg, hba, hsp]

/-- C10 witness: a response whose `result[0]` exists but has no `status`
field, polled from a state with `power = true`. -/
theorem bravia_c10_witness :
    getPowerStatus ⟨some [⟨none⟩]⟩ = "unknown"
    ∧ (pollStep ⟨true, 0, [], 0, []⟩ (some ⟨some [⟨none⟩]⟩)).1.power = false
    ∧ (pollStep ⟨true, 0, [], 0, []⟩ (some ⟨some [⟨none⟩]⟩)).2
        = (if (⟨true, 0, [], 0, []⟩ : CtrlState).power
            then [Notif.power false] else [])
    ∧ pollStep ⟨true, 0, [], 0, []⟩ none = (⟨true, 0, [], 0, []⟩, []) :=
  bravia_c10 ⟨true, 0, [], 0, []⟩ ⟨some [⟨none⟩]⟩ (by decide)

/-! ## Claim C3 — capability rebuild from the same favourites list -/

theorem map_id_of {α : Type} (f : α → α) :
    ∀ (l : List α), (∀ x ∈ l, f x = x) → l.map f = l
  | [], _ => rfl
  | x :: xs, h => by
    rw [List.map_cons, h x (by simp),
      map_id_of f xs (fun s hs => h s (by simp [hs]))]

theorem hasInput_append {base I : List Svc} {st : String}
    (hb : ∀ s ∈ base, s.kind ≠ SvcKind.inputSource) :
    hasInput (base ++ I) st = hasInput I st := by
  unfold hasInput
  rw [List.any_append]
  have hbf : base.any
      (fun s => decide (s.kind = SvcKind.inputSource) && s.subtype == some st)
      = false := by
    rw [List.any_eq_false]
    intro s hs
    simp [hb s hs]
  rw [hbf, Bool.false_or]

theorem updateInput_append {base I : List Svc} {st : String} {fav : Favourite}
    {idv : Nat} (hb : ∀ s ∈ base, s.kind ≠ SvcKind.inputSource) :
    updateInput (base ++ I) st fav idv = base ++ updateInput I st fav idv := by
  unfold updateInput
  rw [List.map_append]
  congr 1
  apply map_id_of
  intro s hs
  simp [hb s hs]

theorem addInputs_split (base : List Svc)
    (hb : ∀ s ∈ base, s.kind ≠ SvcKind.inputSource) :
    ∀ (favs : List Favourite) (I : List Svc) (t : List (Nat × String)) (a : List Svc),
      favs.foldl addInputsStep (base ++ I, t, a)
        = (base ++ (favs.foldl addInputsStep (I, t, a)).1,
            (favs.foldl addInputsStep (I, t, a)).2) := by
  intro favs
  induction favs with
  | nil => intro I t a; simp
  | cons fav favs ih =>
    intro I t a
    rw [List.foldl_cons, List.foldl_cons]
    unfold addInputsStep
    cases hq : qualifies fav with
    | none => exact ih I t a
    | some idv =>
      dsimp only
      rw [hasInput_append hb]
      by_cases hh : hasInput I (favSubtype fav) = true
      · rw [if_pos hh, if_pos hh, updateInput_append hb]
        exact ih _ _ _
      · rw [if_neg hh, if_neg hh, List.append_assoc]
        exact ih _ _ _

theorem addInputs_kinds :
    ∀ (favs : List Favourite) (I : List Svc) (t : List (Nat × String))
      (a : List Svc), (∀ s ∈ I, s.kind = SvcKind.inputSource) →
      ∀ s ∈ (favs.foldl addInputsStep (I, t, a)).1, s.kind = SvcKind.inputSource := by
  intro favs
  induction favs with
  | nil => intro I t a hI; simpa using hI
  | cons fav favs ih =>
    intro I t a hI
    rw [List.foldl_cons]
    unfold addInputsStep
    cases hq : qualifies fav with
    | none => exact ih I t a hI
    | some idv =>
      dsimp only
      by_cases hh : hasInput I (favSubtype fav) = true
      · rw [if_pos hh]
        apply ih
        intro s hs
        unfold updateInput at hs
        rw [List.mem_map] at hs
        obtain ⟨x, hx, hfx⟩ := hs
        by_cases hc : (decide (x.kind = SvcKind.inputSource)
            && x.subtype == some (favSubtype fav)) = true
        · rw [if_pos hc] at hfx
          rw [← hfx]
          exact hI x hx
        · rw [if_neg hc] at hfx
          rw [← hfx]
          exact hI x hx
      · rw [if_neg hh]
        apply ih
        intro s hs
        rw [List.mem_append] at hs
        rcases hs with hs | hs
        · exact hI s hs
        · simp at hs
          rw [hs]

/-- The `removed` component is the input accessory's non-information
services, whatever else happens. -/
theorem buildServices_removed (acc : List Svc) (name : String)
    (favs : List Favourite) :
    (buildServices acc name favs).removed
      = acc.filter (fun s => !decide (s.kind = SvcKind.info)) := rfl

theorem buildServices_decomp (acc : List Svc) (name : String)
    (favs : List Favourite) :
    (buildServices acc name favs).services
      = acc.filter (fun s => decide (s.kind = SvcKind.info))
          ++ (buildServices [] name favs).services := by
  unfold buildServices
  dsimp only
  have hf : (acc.filter (fun s => decide (s.kind = SvcKind.info))).find?
      (fun s => decide (s.kind = SvcKind.television)) = none := by
    rw [List.find?_eq_none]
    intro x hx
    have hx2 := (List.mem_filter.mp hx).2
    rw [decide_eq_true_eq] at hx2
    simp [hx2]
  rw [hf]
  dsimp only
  have hb : ∀ s ∈ acc.filter (fun s => decide (s.kind = SvcKind.info)),
      s.kind ≠ SvcKind.inputSource := by
    intro s hs
    have hs2 := (List.mem_filter.mp hs).2
    rw [decide_eq_true_eq] at hs2
    rw [hs2]
    intro hcontra
    exact SvcKind.noConfusion hcontra
  have hsplit := addInputs_split
    (acc.filter (fun s => decide (s.kind = SvcKind.info))) hb favs
    [⟨SvcKind.television, none, name, none⟩] [] []
  rw [hsplit]
  dsimp only [List.filter_nil, List.find?_nil, List.nil_append]

/-- The services produced on a fresh (information-only) accessory are all
non-information: the new Television service plus input sources. -/
theorem buildServices_nil_kinds (name : String) (favs : List Favourite) :
    ∀ s ∈ (buildServices [] name favs).services, s.kind ≠ SvcKind.info := by
  unfold buildServices
  dsimp only [List.filter_nil, List.find?_nil, List.nil_append]
  have h0 := addInputs_split [⟨SvcKind.television, none, name, none⟩]
    (by
      intro x hx
      simp at hx
      rw [hx]
      intro hcontra
      exact SvcKind.noConfusion hcontra)
    favs [] [] []
  rw [List.append_nil] at h0
  rw [h0]
  intro s hs
  rw [List.mem_append] at hs
  rcases hs with hs | hs
  · simp at hs
    rw [hs]
    intro hcontra
    exact SvcKind.noConfusion hcontra
  · have := addInputs_kinds favs [] [] [] (by intro x hx; simp at hx) s hs
    rw [this]
    intro hcontra
    exact SvcKind.noConfusion hcontra

/-- C3, counterexample: Building capabilities from a favourites list of
3 entries and rebuilding from the same list: the claim says no additions and
no removals; the code first removes every non-AccessoryInformation service
(src/index.js:210-214) and then re-adds the Television service and all three
inputs, so the rebuild performs 4 removals and 4 additions. -/
theorem bravia_c3_cex :
    (buildServices (buildServices [⟨SvcKind.info, none, "i", none⟩] "TV"
        [⟨"BBC One", "1"⟩, ⟨"BBC Two", "2"⟩, ⟨"ITV1", "3"⟩]).services "TV"
        [⟨"BBC One", "1"⟩, ⟨"BBC Two", "2"⟩, ⟨"ITV1", "3"⟩]).removed.length = 4
    ∧ (buildServices (buildServices [⟨SvcKind.info, none, "i", none⟩] "TV"
        [⟨"BBC One", "1"⟩, ⟨"BBC Two", "2"⟩, ⟨"ITV1", "3"⟩]).services "TV"
        [⟨"BBC One", "1"⟩, ⟨"BBC Two", "2"⟩, ⟨"ITV1", "3"⟩]).added.length = 4 := by
  exact ⟨rfl, rfl⟩

/-- C3 (amended): The rebuild is remove-and-recreate, not in-place
update: every non-AccessoryInformation service is removed and the capability
set is recreated as a pure function of the favourites list alone (so stale
entries disappear, surviving entries keep the subtype/identifier derived
from their channel number, and a renamed favourite creates no duplicate).
Consequently rebuilding from the same list reproduces exactly the same
service list — but by removing every previously built service (the rebuild's
`removed` equals the whole previously built set) and adding it afresh, not
by in-place update with zero additions and removals. -/
theorem bravia_c3_amended : ∀ (acc : List Svc) (name : String)
    (favs : List Favourite),
    (buildServices acc name favs).services
        = acc.filter (fun s => decide (s.kind = SvcKind.info))
            ++ (buildServices [] name favs).services
    ∧ (buildServices (buildServices acc name favs).services name favs).services
        = (buildServices acc name favs).services
    ∧ (buildServices (buildServices acc name favs).services name favs).removed
        = (buildServices [] name favs).services := by
  intro acc name favs
  have hkept : (acc.filter (fun s => decide (s.kind = SvcKind.info))).filter
      (fun s => decide (s.kind = SvcKind.info))
      = acc.filter (fun s => decide (s.kind = SvcKind.info)) := by
    rw [List.filter_eq_self]
    intro x hx
    exact (List.mem_filter.mp hx).2
  have hd1 := buildServices_decomp acc name favs
  have hnilk := buildServices_nil_kinds name favs
  have hfilt1 : ((buildServices acc name favs).services).filter
      (fun s => decide (s.kind = SvcKind.info))
      = acc.filter (fun s => decide (s.kind = SvcKind.info)) := by
    rw [hd1, List.filter_append, hkept]
    have h0 : ((buildServices [] name favs).services).filter
        (fun s => decide (s.kind = SvcKind.info)) = [] := by
      rw [List.filter_eq_nil_iff]
      intro x hx
      simp [hnilk x hx]
    rw [h0, List.append_nil]
  refine ⟨hd1, ?_, ?_⟩
  · rw [buildServices_decomp ((buildServices acc name favs).services) name favs,
      hfilt1, hd1]
  · rw [buildServices_removed, hd1, List.filter_append]
    have h1 : (acc.filter (fun s => decide (s.kind = SvcKind.info))).filter
        (fun s => !decide (s.kind = SvcKind.info)) = [] := by
      rw [List.filter_eq_nil_iff]
      intro x hx
      simp [(List.mem_filter.mp hx).2]
    have h2 : ((buildServices [] name favs).services).filter
        (fun s => !decide (s.kind = SvcKind.info))
        = (buildServices [] name favs).services := by
      rw [List.filter_eq_self]
      intro x hx
      simp [hnilk x hx]
    rw [h1, h2, List.nil_append]

end Bravia
